import Mathlib

/-!
Shallow embedding of the QuizMaker exam-grading backend
(`backend/src/controllers/responseController.js`, together with the
validation chains in `backend/src/routes/responses.js` and the relational
rows of `backend/prisma/migrations/.../migration.sql`).

Number semantics: the JavaScript arithmetic on scores and points is on small
integers, modelled by `Int`; the percentage computation
`Math.round((score / totalPoints) * 100)` is modelled exactly over `ℚ`
with `Math.round x = ⌊x + 1/2⌋` (round half toward positive infinity).
-/

namespace QuizMaker

/-- Question type enum of the prisma schema: the four values accepted by
`examValidation` (`isIn([MULTIPLE_CHOICE, TRUE_FALSE, SHORT_ANSWER, ESSAY])`). -/
inductive QuestionType where
  | MULTIPLE_CHOICE
  | TRUE_FALSE
  | SHORT_ANSWER
  | ESSAY
  deriving DecidableEq

/-- Row of the `questions` table as grading consumes it: id, type, nullable
`correctAnswer`, `points`, explicit `order` used for display/grading sequencing. -/
structure Question where
  id : String
  type : QuestionType
  correctAnswer : Option String
  points : Int
  order : Int
  deriving DecidableEq

/-- One element of the submitted `answers` array: `{questionId, answer}`. -/
structure SubmittedAnswer where
  questionId : String
  answer : String
  deriving DecidableEq

/-- One element of `processedAnswers` built by the grading loop:
`{questionId, answer, isCorrect}`. -/
structure ProcessedAnswer where
  questionId : String
  answer : String
  isCorrect : Bool
  deriving DecidableEq

/-- Row of the `exams` table with its included `questions` relation
(the list as stored; the controller fetches it with orderBy order asc). -/
structure Exam where
  id : String
  authorId : String
  shareLink : String
  isActive : Bool
  questions : List Question
  deriving DecidableEq

/-- Correctness test of the grading loop body (responseController lines 48-60):
`isCorrect` starts `false`; for MULTIPLE_CHOICE and TRUE_FALSE it becomes `true`
exactly when `question.correctAnswer` is truthy (non-null, non-empty string:
JavaScript truthiness) and `studentAnswer.answer === question.correctAnswer`;
SHORT_ANSWER and ESSAY are left for manual grading. -/
def isCorrectFor (question : Question) (studentAnswer : SubmittedAnswer) : Bool :=
  match question.type with
  | .MULTIPLE_CHOICE | .TRUE_FALSE =>
      match question.correctAnswer with
      | some c => c != "" && studentAnswer.answer == c
      | none => false
  | .SHORT_ANSWER | .ESSAY => false

/-- Accumulated state of the grading loop: `score`, `totalPoints`,
`processedAnswers`. -/
structure GradeResult where
  score : Int
  totalPoints : Int
  processedAnswers : List ProcessedAnswer
  deriving DecidableEq

/-- The grading loop of `submitResponse` (responseController lines 38-68),
as structural recursion over the ordered question list.  For each question:
`totalPoints += question.points`; the submitted answer is located with
`answers.find(a => a.questionId === question.id)`; when found, the correctness
flag is computed, a correct objective answer adds `question.points` to `score`,
and `{questionId, answer, isCorrect}` is pushed onto `processedAnswers`;
when not found the question contributes no record and no score. -/
def gradeQuestions (answers : List SubmittedAnswer) : List Question → GradeResult
  | [] => { score := 0, totalPoints := 0, processedAnswers := [] }
  | question :: rest =>
    let r := gradeQuestions answers rest
    match answers.find? (fun a => a.questionId == question.id) with
    | some studentAnswer =>
        let isCorrect := isCorrectFor question studentAnswer
        { score := (if isCorrect then question.points else 0) + r.score,
          totalPoints := question.points + r.totalPoints,
          processedAnswers :=
            { questionId := question.id, answer := studentAnswer.answer,
              isCorrect := isCorrect } :: r.processedAnswers }
    | none =>
        { score := r.score,
          totalPoints := question.points + r.totalPoints,
          processedAnswers := r.processedAnswers }

/-- Points the grading loop adds to `score` on behalf of one question:
its `points` if a submitted answer is found for it and that answer is graded
correct, otherwise `0`. -/
def questionContribution (answers : List SubmittedAnswer) (question : Question) : Int :=
  match answers.find? (fun a => a.questionId == question.id) with
  | some studentAnswer => if isCorrectFor question studentAnswer then question.points else 0
  | none => 0

/-- Ordering relation used by the prisma query `orderBy: order asc` on the
`questions` relation: comparison of the explicit `order` field. -/
def questionOrderLE (a b : Question) : Prop := a.order ≤ b.order

instance : DecidableRel questionOrderLE := fun a b =>
  inferInstanceAs (Decidable (a.order ≤ b.order))

instance : IsTotal Question questionOrderLE := ⟨fun a b => le_total a.order b.order⟩

instance : IsTrans Question questionOrderLE := ⟨fun _ _ _ hab hbc => le_trans hab hbc⟩

/-- The question list as the controller receives it from
`prisma.exam.findUnique({include: {questions: {orderBy: {order: asc}}}})`:
the stored questions sorted ascending by `order`. -/
def orderedQuestions (exam : Exam) : List Question :=
  exam.questions.insertionSort questionOrderLE

/-- Grading pass of `submitResponse` on one exam: run the loop over the
order-sorted question list. -/
def submitGrade (exam : Exam) (answers : List SubmittedAnswer) : GradeResult :=
  gradeQuestions answers (orderedQuestions exam)

/-- JavaScript `Math.round`: round half toward positive infinity. -/
def jsRound (x : ℚ) : Int := ⌊x + 1 / 2⌋

/-- Payload of the 201 response (responseController lines 118-127): `score`,
`totalPoints`, `percentage = Math.round((score / totalPoints) * 100)` when
`totalPoints > 0` else `0`, and the graded answers. -/
structure SubmitOutput where
  score : Int
  totalPoints : Int
  percentage : Int
  processedAnswers : List ProcessedAnswer
  deriving DecidableEq

/-- Core computation of the `submitResponse` controller after the exam is
loaded: grade, then attach the percentage. -/
def submitResponse (exam : Exam) (answers : List SubmittedAnswer) : SubmitOutput :=
  let g := submitGrade exam answers
  { score := g.score,
    totalPoints := g.totalPoints,
    percentage :=
      if 0 < g.totalPoints then jsRound ((g.score : ℚ) / (g.totalPoints : ℚ) * 100) else 0,
    processedAnswers := g.processedAnswers }

/-- Whitespace trimming as performed by the express-validator sanitizer
`trim()`: strip whitespace characters from both ends of the string.  Written
as structural recursion over the character list (the whitespace set is
modelled by `Char.isWhitespace`; the counterexamples below only use the plain
space character, which every whitespace convention strips). -/
def trimString (s : String) : String :=
  String.mk (((s.data.dropWhile Char.isWhitespace).reverse.dropWhile
    Char.isWhitespace).reverse)

/-- Sanitizer step of `submitResponseValidation` (routes/responses.js lines 30-33):
the chain `body(answers.*.answer).trim()` MUTATES the stored request body, so the
controller receives the trimmed text. -/
def sanitizeAnswer (a : SubmittedAnswer) : SubmittedAnswer :=
  { a with answer := trimString a.answer }

/-- Validator step of `submitResponseValidation` run after the sanitizer:
`questionId` must have length at least 1 and the (already trimmed) `answer`
must have length at least 1. -/
def answerValid (a : SubmittedAnswer) : Bool :=
  1 ≤ a.questionId.length && 1 ≤ a.answer.length

/-- Failure outcomes of the submission endpoint: a 400 validation failure or
the 404 for a missing or inactive exam. -/
inductive SubmitError where
  | validationFailed
  | examNotFound
  deriving DecidableEq

/-- The `POST /submit/:shareLink` pipeline: the validation chain sanitizes
(trims) every submitted answer text and rejects when `answers` is empty or a
sanitized field is invalid; then the controller rejects inactive exams and
otherwise grades the SANITIZED answers. -/
def submitResponseEndpoint (exam : Exam) (raw : List SubmittedAnswer) :
    Except SubmitError SubmitOutput :=
  let sanitized := raw.map sanitizeAnswer
  if !(1 ≤ raw.length && sanitized.all answerValid) then
    .error .validationFailed
  else if !exam.isActive then
    .error .examNotFound
  else
    .ok (submitResponse exam sanitized)

/-- Row of the `answers` table (migration.sql): the `createMany` payload built
at responseController lines 83-93 maps each processed answer to
`{questionId, answer, responseId}` — the table has no isCorrect column. -/
structure AnswerRow where
  questionId : String
  answer : String
  responseId : String
  deriving DecidableEq

/-- The `answersData` mapping persisted by `tx.answer.createMany`
(responseController lines 84-92). -/
def answersData (responseId : String) (processed : List ProcessedAnswer) : List AnswerRow :=
  processed.map (fun a =>
    { questionId := a.questionId, answer := a.answer, responseId := responseId })

/-- Row of the `responses` table: nullable student fields, nullable `score`,
`totalPoints` snapshot, owning `examId`. -/
structure ResponseRow where
  id : String
  studentName : Option String
  studentEmail : Option String
  score : Option Int
  totalPoints : Int
  examId : String
  deriving DecidableEq

/-- Relational state touched by the response controllers: the `exams`,
`responses` and `answers` tables. -/
structure Database where
  exams : List Exam
  responses : List ResponseRow
  answers : List AnswerRow
  deriving DecidableEq

/-- Lookup `prisma.response.findUnique({where: {id: responseId}})`. -/
def findResponse (db : Database) (responseId : String) : Option ResponseRow :=
  db.responses.find? (fun r => r.id == responseId)

/-- The `include: {exam: {select: {authorId}}}` join: author of the exam the
response belongs to. -/
def examAuthorId (db : Database) (examId : String) : Option String :=
  (db.exams.find? (fun e => e.id == examId)).map Exam.authorId

/-- Failure outcomes of `updateResponseScore`: the 404 with message
`Response not found` (returned BOTH when no response row exists and when the
acting user is not the author of the owning exam), and the 500 of the catch
block (reached e.g. if the joined exam row were absent). -/
inductive UpdateScoreError where
  | responseNotFound
  | internalError
  deriving DecidableEq

/-- The `updateResponseScore` controller (responseController lines 208-248):
load the response with its exam join; if it is missing or its exam author is
not the acting user, answer 404 `Response not found`; otherwise
`prisma.response.update({where: {id: responseId}, data: {score}})` overwrites
the score field only.  Returns the (possibly updated) database together with
the outcome.  (The `updateScoreValidation` chain attaches to the route, but the
controller never consults `validationResult`, so no score bound is enforced.) -/
def updateResponseScore (db : Database) (responseId : String) (score : Int)
    (authorId : String) : Database × Except UpdateScoreError ResponseRow :=
  match findResponse db responseId with
  | none => (db, .error .responseNotFound)
  | some response =>
    match examAuthorId db response.examId with
    | none => (db, .error .internalError)
    | some a =>
      if a == authorId then
        let updated := { response with score := some score }
        ({ db with
            responses := db.responses.map (fun r => if r.id == responseId then updated else r) },
          .ok updated)
      else
        (db, .error .responseNotFound)

instance {ε α : Type} [DecidableEq ε] [DecidableEq α] : DecidableEq (Except ε α) :=
  fun a b =>
    match a, b with
    | .ok x, .ok y =>
        if h : x = y then .isTrue (by rw [h])
        else .isFalse (fun hh => h (Except.ok.inj hh))
    | .error x, .error y =>
        if h : x = y then .isTrue (by rw [h])
        else .isFalse (fun hh => h (Except.error.inj hh))
    | .ok _, .error _ => .isFalse (fun hh => Except.noConfusion hh)
    | .error _, .ok _ => .isFalse (fun hh => Except.noConfusion hh)

/-! Concrete fixtures used to instantiate the theorems below (the exam of
spec scenario A: one 10-point multiple-choice question with correct answer B
and one 5-point essay question). -/

/-- A 10-point multiple-choice question with stored correct answer B. -/
def mcQuestion : Question :=
  { id := "q1", type := .MULTIPLE_CHOICE, correctAnswer := some "B",
    points := 10, order := 1 }

/-- A 5-point essay question. -/
def essayQuestion : Question :=
  { id := "q2", type := .ESSAY, correctAnswer := none, points := 5, order := 2 }

/-- The scenario-A exam; its questions are stored out of display order so that
the orderBy step is exercised. -/
def sampleExam : Exam :=
  { id := "e1", authorId := "alice", shareLink := "s1", isActive := true,
    questions := [essayQuestion, mcQuestion] }

/-- A variant of `mcQuestion` whose stored correct answer is C instead. -/
def mcQuestionC : Question :=
  { id := "q1", type := .MULTIPLE_CHOICE, correctAnswer := some "C",
    points := 10, order := 1 }

/-- A second exam identical to `sampleExam` except for the stored correct
answer of its multiple-choice question. -/
def examVariantC : Exam :=
  { id := "e2", authorId := "alice", shareLink := "s2", isActive := true,
    questions := [mcQuestionC] }

/-- A graded response row of `sampleExam` with the totalPoints snapshot 15. -/
def responseR1 : ResponseRow :=
  { id := "r1", studentName := some "stu", studentEmail := none,
    score := some 10, totalPoints := 15, examId := "e1" }

/-- A database holding `sampleExam` and one graded response. -/
def sampleDb : Database :=
  { exams := [sampleExam], responses := [responseR1], answers := [] }

/-- The same database with no response rows. -/
def emptyRespDb : Database :=
  { exams := [sampleExam], responses := [], answers := [] }

/-! Helper lemmas about the grading loop. -/

/-- Every run of the loop sums the `points` of all questions into
`totalPoints`, matched or not. -/
theorem gradeQuestions_totalPoints (answers : List SubmittedAnswer) :
    ∀ qs : List Question,
      (gradeQuestions answers qs).totalPoints = (qs.map Question.points).sum
  | [] => rfl
  | question :: rest => by
    simp only [gradeQuestions]
    cases h : answers.find? (fun a => a.questionId == question.id) with
    | some sa => simp [gradeQuestions_totalPoints answers rest]
    | none => simp [gradeQuestions_totalPoints answers rest]

/-- The loop's `score` is the sum of the per-question contributions. -/
theorem gradeQuestions_score (answers : List SubmittedAnswer) :
    ∀ qs : List Question,
      (gradeQuestions answers qs).score = (qs.map (questionContribution answers)).sum
  | [] => rfl
  | question :: rest => by
    simp only [gradeQuestions]
    cases h : answers.find? (fun a => a.questionId == question.id) with
    | some sa => simp [questionContribution, h, gradeQuestions_score answers rest]
    | none => simp [questionContribution, h, gradeQuestions_score answers rest]

/-- Every emitted answer record refers to a question of the graded list. -/
theorem gradeQuestions_processed_mem (answers : List SubmittedAnswer) :
    ∀ qs : List Question, ∀ pa ∈ (gradeQuestions answers qs).processedAnswers,
      pa.questionId ∈ qs.map Question.id
  | [], pa, h => by simp [gradeQuestions] at h
  | question :: rest, pa, h => by
    simp only [gradeQuestions] at h
    cases hf : answers.find? (fun a => a.questionId == question.id) with
    | some sa =>
        rw [hf] at h
        simp only [List.mem_cons] at h
        rcases h with h | h
        · subst h; simp
        · simpa using Or.inr (gradeQuestions_processed_mem answers rest pa h)
    | none =>
        rw [hf] at h
        simpa using Or.inr (gradeQuestions_processed_mem answers rest pa h)

/-- The emitted records are exactly the matched questions, in list order,
carrying the matched text and flag. -/
theorem gradeQuestions_processed_map (answers : List SubmittedAnswer) :
    ∀ qs : List Question,
      (gradeQuestions answers qs).processedAnswers.map ProcessedAnswer.questionId
        = (qs.filter
            (fun q => (answers.find? (fun a => a.questionId == q.id)).isSome)).map
            Question.id
  | [] => rfl
  | question :: rest => by
    simp only [gradeQuestions, List.filter_cons]
    cases hf : answers.find? (fun a => a.questionId == question.id) with
    | some sa => simp [gradeQuestions_processed_map answers rest]
    | none => simp [gradeQuestions_processed_map answers rest]

/-- No record is emitted for an id that belongs to no graded question. -/
theorem gradeQuestions_filter_not_mem (answers : List SubmittedAnswer) (x : String) :
    ∀ qs : List Question, x ∉ qs.map Question.id →
      (gradeQuestions answers qs).processedAnswers.filter
        (fun pa => pa.questionId == x) = []
  | [], _ => rfl
  | question :: rest, hx => by
    have hx1 : question.id ≠ x := by
      intro h; exact hx (by simp [h])
    have hx2 : x ∉ rest.map Question.id := by
      intro h; exact hx (by simp [h])
    simp only [gradeQuestions]
    cases hf : answers.find? (fun a => a.questionId == question.id) with
    | some sa =>
        simp [List.filter_cons, hx1, gradeQuestions_filter_not_mem answers x rest hx2]
    | none => simpa using gradeQuestions_filter_not_mem answers x rest hx2

/-- When the question ids are distinct, the matched question `q` emits exactly
one record: the matched text together with its computed flag. -/
theorem gradeQuestions_filter_eq (answers : List SubmittedAnswer) (q : Question)
    (sa : SubmittedAnswer)
    (hfind : answers.find? (fun a => a.questionId == q.id) = some sa) :
    ∀ qs : List Question, (qs.map Question.id).Nodup → q ∈ qs →
      (gradeQuestions answers qs).processedAnswers.filter
          (fun pa => pa.questionId == q.id)
        = [{ questionId := q.id, answer := sa.answer, isCorrect := isCorrectFor q sa }]
  | [], _, hq => by simp at hq
  | question :: rest, hnodup, hq => by
    rw [List.map_cons, List.nodup_cons] at hnodup
    rcases List.mem_cons.mp hq with hq | hq
    · subst hq
      simp only [gradeQuestions, hfind]
      simp [List.filter_cons,
        gradeQuestions_filter_not_mem answers q.id rest hnodup.1]
    · have hne : question.id ≠ q.id := by
        intro h
        have : q.id ∈ rest.map Question.id := List.mem_map.mpr ⟨q, hq, rfl⟩
        rw [h] at hnodup
        exact hnodup.1 this
      have hrec := gradeQuestions_filter_eq answers q sa hfind rest hnodup.2 hq
      simp only [gradeQuestions]
      cases hf : answers.find? (fun a => a.questionId == question.id) with
      | some sb => simp [List.filter_cons, hne, hrec]
      | none => simpa using hrec

/-- A question whose id matches no submitted answer emits no record. -/
theorem gradeQuestions_filter_unanswered (answers : List SubmittedAnswer) (x : String)
    (hfind : answers.find? (fun a => a.questionId == x) = none) :
    ∀ qs : List Question,
      (gradeQuestions answers qs).processedAnswers.filter
        (fun pa => pa.questionId == x) = []
  | [] => rfl
  | question :: rest => by
    simp only [gradeQuestions]
    cases hf : answers.find? (fun a => a.questionId == question.id) with
    | some sa =>
        have hne : question.id ≠ x := by
          intro h; rw [h] at hf; rw [hf] at hfind; exact Option.noConfusion hfind
        simp [List.filter_cons, hne,
          gradeQuestions_filter_unanswered answers x hfind rest]
    | none => simpa using gradeQuestions_filter_unanswered answers x hfind rest

/-- Appending a submitted answer whose id is not a question id changes nothing
about the lookup for any graded question. -/
theorem find?_append_irrelevant (b : SubmittedAnswer) (x : String)
    (hb : (b.questionId == x) = false) :
    ∀ answers : List SubmittedAnswer,
      (answers ++ [b]).find? (fun a => a.questionId == x)
        = answers.find? (fun a => a.questionId == x)
  | [] => by simp [List.find?, hb]
  | a :: rest => by
    cases ha : a.questionId == x with
    | true => simp [List.find?_cons, ha]
    | false => simp [List.find?_cons, ha, find?_append_irrelevant b x hb rest]

/-- An extra submitted answer referencing no question of the list leaves the
whole grading result unchanged. -/
theorem gradeQuestions_append_unmatched (answers : List SubmittedAnswer)
    (b : SubmittedAnswer) :
    ∀ qs : List Question, b.questionId ∉ qs.map Question.id →
      gradeQuestions (answers ++ [b]) qs = gradeQuestions answers qs
  | [], _ => rfl
  | question :: rest, hb => by
    have hb1 : (b.questionId == question.id) = false := by
      simp only [beq_eq_false_iff_ne, ne_eq]
      intro h; exact hb (by simp [h])
    have hb2 : b.questionId ∉ rest.map Question.id := by
      intro h; exact hb (by simp [h])
    simp only [gradeQuestions, find?_append_irrelevant b question.id hb1 answers,
      gradeQuestions_append_unmatched answers b rest hb2]

/-- A run in which no question finds a submitted answer scores zero and emits
no records. -/
theorem gradeQuestions_no_match (answers : List SubmittedAnswer) :
    ∀ qs : List Question,
      (∀ q ∈ qs, answers.find? (fun a => a.questionId == q.id) = none) →
      (gradeQuestions answers qs).score = 0
        ∧ (gradeQuestions answers qs).processedAnswers = []
  | [], _ => ⟨rfl, rfl⟩
  | question :: rest, h => by
    have hhead := h question (by simp)
    have hrest := gradeQuestions_no_match answers rest
      (fun q hq => h q (List.mem_cons_of_mem _ hq))
    simp [gradeQuestions, hhead, hrest.1, hrest.2]

/-- Every emitted record carries the id and the verbatim text of some element
of the submitted answer list. -/
theorem gradeQuestions_processed_source (answers : List SubmittedAnswer) :
    ∀ qs : List Question, ∀ pa ∈ (gradeQuestions answers qs).processedAnswers,
      ∃ a ∈ answers, a.questionId = pa.questionId ∧ pa.answer = a.answer
  | [], pa, h => by simp [gradeQuestions] at h
  | question :: rest, pa, h => by
    simp only [gradeQuestions] at h
    cases hf : answers.find? (fun a => a.questionId == question.id) with
    | some sa =>
        rw [hf] at h
        rcases List.mem_cons.mp h with h | h
        · subst h
          refine ⟨sa, List.mem_of_find?_eq_some hf, ?_, rfl⟩
          simpa using List.find?_some hf
        · exact gradeQuestions_processed_source answers rest pa h
    | none =>
        rw [hf] at h
        exact gradeQuestions_processed_source answers rest pa h

/-- The contribution of a question with nonnegative points is nonnegative. -/
theorem questionContribution_nonneg (answers : List SubmittedAnswer) (q : Question)
    (h : 0 ≤ q.points) : 0 ≤ questionContribution answers q := by
  unfold questionContribution
  cases answers.find? (fun a => a.questionId == q.id) with
  | some sa =>
      by_cases hc : isCorrectFor q sa = true
      · simpa [hc] using h
      · simp [hc]
  | none => simp

/-- The contribution of a question with nonnegative points never exceeds its
points. -/
theorem questionContribution_le (answers : List SubmittedAnswer) (q : Question)
    (h : 0 ≤ q.points) : questionContribution answers q ≤ q.points := by
  unfold questionContribution
  cases answers.find? (fun a => a.questionId == q.id) with
  | some sa =>
      by_cases hc : isCorrectFor q sa = true
      · simp [hc]
      · simpa [hc] using h
  | none => simpa using h

/-- The sorted question list is a permutation of the stored one. -/
theorem orderedQuestions_perm (exam : Exam) :
    List.Perm (orderedQuestions exam) exam.questions :=
  List.perm_insertionSort questionOrderLE exam.questions

/-- The sorted question list is ascending in the `order` field. -/
theorem orderedQuestions_sorted (exam : Exam) :
    List.Sorted questionOrderLE (orderedQuestions exam) :=
  List.sorted_insertionSort questionOrderLE exam.questions

/-- Summing any integer question statistic is invariant under the sort. -/
theorem orderedQuestions_sum (exam : Exam) (f : Question → Int) :
    ((orderedQuestions exam).map f).sum = (exam.questions.map f).sum :=
  ((orderedQuestions_perm exam).map f).sum_eq

/-- Evaluation rule for `jsRound` on an integer-over-natural quotient. -/
theorem jsRound_div (n : ℤ) (d : ℕ) :
    jsRound ((n : ℚ) / (d : ℚ)) = (2 * n + d) / ((2 * d : ℕ) : ℤ) := by
  rcases Nat.eq_zero_or_pos d with h | h
  · subst h
    norm_num [jsRound]
  · have hd : (d : ℚ) ≠ 0 := by exact_mod_cast h.ne'
    rw [jsRound]
    have key : (n : ℚ) / (d : ℚ) + 1 / 2
        = ((2 * n + d : ℤ) : ℚ) / ((2 * d : ℕ) : ℚ) := by
      push_cast
      field_simp
      ring
    rw [key, Rat.floor_intCast_div_natCast]

/-- Evaluation rule for the percentage expression with a positive total. -/
theorem jsRound_percent (s t : ℤ) (ht : 0 < t) :
    jsRound ((s : ℚ) / (t : ℚ) * 100) = (200 * s + t) / (2 * t) := by
  have hd : ((t.toNat : ℕ) : ℤ) = t := Int.toNat_of_nonneg ht.le
  have hdq : ((t.toNat : ℕ) : ℚ) = (t : ℚ) := by exact_mod_cast congrArg Int.cast hd
  have htq : (t : ℚ) ≠ 0 := by
    exact_mod_cast ht.ne'
  have h1 : (s : ℚ) / (t : ℚ) * 100 = ((100 * s : ℤ) : ℚ) / ((t.toNat : ℕ) : ℚ) := by
    rw [hdq]
    push_cast
    field_simp
    ring
  rw [h1, jsRound_div]
  have h2 : ((2 * t.toNat : ℕ) : ℤ) = 2 * t := by push_cast [hd]; ring
  rw [h2]
  congr 1
  push_cast [hd]
  ring

/-! Claim theorems. -/

/-- C1: for an objective (multiple-choice or true/false) question `q` of the
exam with a matching submitted answer `sa`, grading emits exactly one record
for `q`, carrying the flag `isCorrectFor q sa`; whenever a correct answer `c`
is configured (non-null, non-empty) that flag is exactly case-sensitive string
equality `sa.answer == c`; with no configured value (null or empty) the flag
is `false`; the question contributes its points to `score` exactly when the
flag holds, and `score` is the sum of these contributions. -/
theorem c1_objective_grading (exam : Exam) (answers : List SubmittedAnswer)
    (q : Question) (sa : SubmittedAnswer)
    (hq : q ∈ exam.questions)
    (hnodup : (exam.questions.map Question.id).Nodup)
    (htype : q.type = .MULTIPLE_CHOICE ∨ q.type = .TRUE_FALSE)
    (hfind : answers.find? (fun a => a.questionId == q.id) = some sa) :
    ((submitGrade exam answers).processedAnswers.filter
          (fun pa => pa.questionId == q.id)
        = [{ questionId := q.id, answer := sa.answer,
             isCorrect := isCorrectFor q sa }])
      ∧ (∀ c, q.correctAnswer = some c → c ≠ "" →
          isCorrectFor q sa = (sa.answer == c))
      ∧ ((q.correctAnswer = none ∨ q.correctAnswer = some "") →
          isCorrectFor q sa = false)
      ∧ questionContribution answers q
          = (if isCorrectFor q sa then q.points else 0)
      ∧ (submitGrade exam answers).score
          = (exam.questions.map (questionContribution answers)).sum := by
  have hperm := orderedQuestions_perm exam
  have hnodup2 : ((orderedQuestions exam).map Question.id).Nodup :=
    ((hperm.map Question.id).nodup_iff).mpr hnodup
  have hq2 : q ∈ orderedQuestions exam := hperm.mem_iff.mpr hq
  refine ⟨?_, ?_, ?_, ?_, ?_⟩
  · exact gradeQuestions_filter_eq answers q sa hfind _ hnodup2 hq2
  · intro c hcc hcne
    rcases htype with h | h <;> simp [isCorrectFor, h, hcc, bne_iff_ne, hcne]
  · intro h0
    rcases htype with h | h <;> rcases h0 with h0 | h0 <;> simp [isCorrectFor, h, h0]
  · simp [questionContribution, hfind]
  · rw [show (submitGrade exam answers).score
        = (gradeQuestions answers (orderedQuestions exam)).score from rfl,
      gradeQuestions_score]
    exact orderedQuestions_sum exam (questionContribution answers)

/-- C1 witness: on the scenario-A exam, the submitted answer B to the 10-point
multiple-choice question with configured correct answer B is emitted graded,
its flag equals exact equality with B, and score sums the contributions. -/
theorem c1_objective_grading_witness :
    ((submitGrade sampleExam [⟨"q1", "B"⟩]).processedAnswers.filter
          (fun pa => pa.questionId == mcQuestion.id)
        = [{ questionId := mcQuestion.id, answer := "B",
             isCorrect := isCorrectFor mcQuestion ⟨"q1", "B"⟩ }])
      ∧ (∀ c, mcQuestion.correctAnswer = some c → c ≠ "" →
          isCorrectFor mcQuestion ⟨"q1", "B"⟩ = ("B" == c))
      ∧ ((mcQuestion.correctAnswer = none ∨ mcQuestion.correctAnswer = some "") →
          isCorrectFor mcQuestion ⟨"q1", "B"⟩ = false)
      ∧ questionContribution [⟨"q1", "B"⟩] mcQuestion
          = (if isCorrectFor mcQuestion ⟨"q1", "B"⟩ then mcQuestion.points else 0)
      ∧ (submitGrade sampleExam [⟨"q1", "B"⟩]).score
          = (sampleExam.questions.map (questionContribution [⟨"q1", "B"⟩])).sum :=
  c1_objective_grading sampleExam [⟨"q1", "B"⟩] mcQuestion ⟨"q1", "B"⟩
    (by decide) (by decide) (Or.inl rfl) (by decide)

/-- C2: `totalPoints` of every submission equals the sum of `points` over ALL
questions of the exam, whatever was answered; and a submission in which no
question finds a matching answer grades to `score = 0`. -/
theorem c2_totalPoints_full_sum (exam : Exam) (answers : List SubmittedAnswer) :
    (submitResponse exam answers).totalPoints
        = (exam.questions.map Question.points).sum
      ∧ ((∀ q ∈ exam.questions,
            answers.find? (fun a => a.questionId == q.id) = none) →
          (submitResponse exam answers).score = 0) := by
  constructor
  · rw [show (submitResponse exam answers).totalPoints
        = (gradeQuestions answers (orderedQuestions exam)).totalPoints from rfl,
      gradeQuestions_totalPoints]
    exact orderedQuestions_sum exam Question.points
  · intro h
    have h2 : ∀ q ∈ orderedQuestions exam,
        answers.find? (fun a => a.questionId == q.id) = none :=
      fun q hq => h q ((orderedQuestions_perm exam).mem_iff.mp hq)
    exact (gradeQuestions_no_match answers (orderedQuestions exam) h2).1

/-- C2 witness: a submission whose only answer references a non-existent
question id grades to score 0 with the full 15-point total. -/
theorem c2_totalPoints_full_sum_witness :
    (submitResponse sampleExam [⟨"zz", "w"⟩]).totalPoints
        = (sampleExam.questions.map Question.points).sum
      ∧ (submitResponse sampleExam [⟨"zz", "w"⟩]).score = 0 :=
  ⟨(c2_totalPoints_full_sum sampleExam [⟨"zz", "w"⟩]).1,
   (c2_totalPoints_full_sum sampleExam [⟨"zz", "w"⟩]).2 (by decide)⟩

/-- C3: grading walks the questions sorted ascending by `order` (a permutation
of the stored list); the emitted records are exactly, in that order, the
questions whose id some submitted answer matches; a question matched by no
answer emits no record and contributes nothing; every emitted record refers
to an exam question, and appending a submitted answer whose questionId
matches no question changes nothing about the grading result. -/
theorem c3_matching_and_dropping (exam : Exam) (answers : List SubmittedAnswer) :
    List.Sorted questionOrderLE (orderedQuestions exam)
      ∧ List.Perm (orderedQuestions exam) exam.questions
      ∧ (submitGrade exam answers).processedAnswers.map ProcessedAnswer.questionId
          = ((orderedQuestions exam).filter
              (fun q => (answers.find? (fun a => a.questionId == q.id)).isSome)).map
              Question.id
      ∧ (∀ x : String, answers.find? (fun a => a.questionId == x) = none →
          (submitGrade exam answers).processedAnswers.filter
              (fun pa => pa.questionId == x) = [])
      ∧ (∀ q : Question, answers.find? (fun a => a.questionId == q.id) = none →
          questionContribution answers q = 0)
      ∧ (∀ pa ∈ (submitGrade exam answers).processedAnswers,
          pa.questionId ∈ exam.questions.map Question.id)
      ∧ (∀ b : SubmittedAnswer, b.questionId ∉ exam.questions.map Question.id →
          submitGrade exam (answers ++ [b]) = submitGrade exam answers) := by
  refine ⟨orderedQuestions_sorted exam, orderedQuestions_perm exam,
    gradeQuestions_processed_map answers (orderedQuestions exam), ?_, ?_, ?_, ?_⟩
  · intro x hx
    exact gradeQuestions_filter_unanswered answers x hx (orderedQuestions exam)
  · intro q hq
    simp [questionContribution, hq]
  · intro pa hpa
    have := gradeQuestions_processed_mem answers (orderedQuestions exam) pa hpa
    exact ((orderedQuestions_perm exam).map Question.id).mem_iff.mp this
  · intro b hb
    have hb2 : b.questionId ∉ (orderedQuestions exam).map Question.id := by
      intro h
      exact hb (((orderedQuestions_perm exam).map Question.id).mem_iff.mp h)
    exact gradeQuestions_append_unmatched answers b (orderedQuestions exam) hb2

/-- C3 witness: with one real answer and one bogus-id answer on the scenario-A
exam, the bogus answer is dropped without any effect. -/
theorem c3_matching_and_dropping_witness :
    (submitGrade sampleExam ([⟨"q1", "B"⟩] ++ [⟨"zz", "w"⟩])
        = submitGrade sampleExam [⟨"q1", "B"⟩])
      ∧ (submitGrade sampleExam [⟨"q1", "B"⟩]).processedAnswers.filter
          (fun pa => pa.questionId == "q2") = [] :=
  ⟨((c3_matching_and_dropping sampleExam [⟨"q1", "B"⟩]).2.2.2.2.2.2
      ⟨"zz", "w"⟩ (by decide)),
   ((c3_matching_and_dropping sampleExam [⟨"q1", "B"⟩]).2.2.2.1
      "q2" (by decide))⟩

/-- C4: a subjective (short-answer or essay) question with a matching
submitted answer is emitted with `isCorrect = false` and contributes 0 points
to the score, regardless of the submitted content and of any configured
correct answer. -/
theorem c4_subjective_never_scored (exam : Exam) (answers : List SubmittedAnswer)
    (q : Question) (sa : SubmittedAnswer)
    (hq : q ∈ exam.questions)
    (hnodup : (exam.questions.map Question.id).Nodup)
    (htype : q.type = .SHORT_ANSWER ∨ q.type = .ESSAY)
    (hfind : answers.find? (fun a => a.questionId == q.id) = some sa) :
    ((submitGrade exam answers).processedAnswers.filter
          (fun pa => pa.questionId == q.id)
        = [{ questionId := q.id, answer := sa.answer, isCorrect := false }])
      ∧ questionContribution answers q = 0
      ∧ (submitGrade exam answers).score
          = (exam.questions.map (questionContribution answers)).sum := by
  have hflag : isCorrectFor q sa = false := by
    rcases htype with h | h <;> simp [isCorrectFor, h]
  have hperm := orderedQuestions_perm exam
  have hnodup2 : ((orderedQuestions exam).map Question.id).Nodup :=
    ((hperm.map Question.id).nodup_iff).mpr hnodup
  have hq2 : q ∈ orderedQuestions exam := hperm.mem_iff.mpr hq
  refine ⟨?_, ?_, ?_⟩
  · have := gradeQuestions_filter_eq answers q sa hfind _ hnodup2 hq2
    rwa [hflag] at this
  · simp [questionContribution, hfind, hflag]
  · rw [show (submitGrade exam answers).score
        = (gradeQuestions answers (orderedQuestions exam)).score from rfl,
      gradeQuestions_score]
    exact orderedQuestions_sum exam (questionContribution answers)

/-- C4 witness: the essay answer of scenario A is emitted with a false flag
and zero contribution. -/
theorem c4_subjective_never_scored_witness :
    ((submitGrade sampleExam [⟨"q2", "free text"⟩]).processedAnswers.filter
          (fun pa => pa.questionId == essayQuestion.id)
        = [{ questionId := essayQuestion.id, answer := "free text",
             isCorrect := false }])
      ∧ questionContribution [⟨"q2", "free text"⟩] essayQuestion = 0
      ∧ (submitGrade sampleExam [⟨"q2", "free text"⟩]).score
          = (sampleExam.questions.map (questionContribution [⟨"q2", "free text"⟩])).sum :=
  c4_subjective_never_scored sampleExam [⟨"q2", "free text"⟩] essayQuestion
    ⟨"q2", "free text"⟩ (by decide) (by decide) (Or.inr rfl) (by decide)

/-- C5: the returned percentage is `Math.round(score / totalPoints * 100)`
(modelled exactly over `ℚ`, with round half toward positive infinity) when
`totalPoints > 0`, and `0` when `totalPoints = 0`. -/
theorem c5_percentage_policy (exam : Exam) (answers : List SubmittedAnswer) :
    (0 < (submitResponse exam answers).totalPoints →
        (submitResponse exam answers).percentage
          = jsRound (((submitResponse exam answers).score : ℚ)
              / ((submitResponse exam answers).totalPoints : ℚ) * 100))
      ∧ ((submitResponse exam answers).totalPoints = 0 →
        (submitResponse exam answers).percentage = 0) := by
  constructor
  · intro h
    simp only [submitResponse] at h ⊢
    rw [if_pos h]
  · intro h
    simp only [submitResponse] at h ⊢
    rw [if_neg (by rw [h]; exact lt_irrefl 0)]

/-- C5 witness: scenario A (score 10 of 15) reports 67 percent. -/
theorem c5_percentage_policy_witness :
    (submitResponse sampleExam [⟨"q1", "B"⟩, ⟨"q2", "free text"⟩]).percentage = 67 := by
  have h := (c5_percentage_policy sampleExam [⟨"q1", "B"⟩, ⟨"q2", "free text"⟩]).1
    (by decide)
  have hs : (submitResponse sampleExam [⟨"q1", "B"⟩, ⟨"q2", "free text"⟩]).score
      = (10 : ℤ) := by decide
  have ht : (submitResponse sampleExam [⟨"q1", "B"⟩, ⟨"q2", "free text"⟩]).totalPoints
      = (15 : ℤ) := by decide
  rw [hs, ht] at h
  rw [h, jsRound_percent 10 15 (by norm_num)]
  decide

/-- C6 counterexample: the claim says the text grading compares is EXACTLY the
client-submitted text with no trimming anywhere.  On the scenario-A exam the
raw submission text for q1 is the string space-B; the validation chain of the
endpoint trims it, the grading pass then compares B and marks the answer
correct with full points — whereas grading the raw text verbatim (as the
claim asserts happens) marks it incorrect.  So trimming does occur between
receipt and comparison. -/
theorem c6_counterexample :
    submitResponseEndpoint sampleExam [⟨"q1", " B"⟩]
        = .ok (submitResponse sampleExam [⟨"q1", "B"⟩])
      ∧ (submitResponse sampleExam [⟨"q1", "B"⟩]).score = 10
      ∧ (submitGrade sampleExam [⟨"q1", " B"⟩]).processedAnswers
        = [{ questionId := "q1", answer := " B", isCorrect := false }]
      ∧ (submitGrade sampleExam [⟨"q1", " B"⟩]).score = 0
      ∧ " B" ≠ "B" :=
  ⟨rfl, by decide, by decide, by decide, by decide⟩

/-- C6 amended: the equality comparison itself applies no normalization, but
the validation layer trims leading and trailing whitespace from every
submitted answer text (and rejects empty results) before the controller runs,
so the text grading compares is exactly the TRIM of the text the client
submitted. -/
theorem c6_trimmed_text_graded (exam : Exam) (raw : List SubmittedAnswer)
    (out : SubmitOutput)
    (h : submitResponseEndpoint exam raw = .ok out) :
    out = submitResponse exam (raw.map sanitizeAnswer)
      ∧ ∀ pa ∈ out.processedAnswers, ∃ a ∈ raw,
          a.questionId = pa.questionId ∧ pa.answer = trimString a.answer := by
  have hout : out = submitResponse exam (raw.map sanitizeAnswer) := by
    simp only [submitResponseEndpoint] at h
    split at h
    · exact absurd h (by simp)
    · split at h
      · exact absurd h (by simp)
      · exact (Except.ok.inj h).symm
  refine ⟨hout, ?_⟩
  intro pa hpa
  rw [hout] at hpa
  have := gradeQuestions_processed_source (raw.map sanitizeAnswer)
    (orderedQuestions exam) pa hpa
  rcases this with ⟨a', ha'mem, ha'id, ha'ans⟩
  rcases List.mem_map.mp ha'mem with ⟨a, hamem, rfl⟩
  exact ⟨a, hamem, ha'id, ha'ans⟩

/-- C6 amended witness: the raw space-B submission is accepted and graded as
the trimmed submission B. -/
theorem c6_trimmed_text_graded_witness :
    submitResponse sampleExam [⟨"q1", "B"⟩]
        = submitResponse sampleExam ([⟨"q1", " B"⟩].map sanitizeAnswer) :=
  (c6_trimmed_text_graded sampleExam [⟨"q1", " B"⟩]
    (submitResponse sampleExam [⟨"q1", "B"⟩]) rfl).1

/-- C7 counterexample: the correctness flag is NOT persisted with the Answer
record.  The same submitted answer B graded against two exams (stored correct
answer B versus C) yields different flags but identical `createMany` payloads:
the persisted rows determine no `isCorrect` value, and the `answers` table has
no such column. -/
theorem c7_counterexample :
    answersData "r9" (submitGrade sampleExam [⟨"q1", "B"⟩]).processedAnswers
        = answersData "r9" (submitGrade examVariantC [⟨"q1", "B"⟩]).processedAnswers
      ∧ (submitGrade sampleExam [⟨"q1", "B"⟩]).processedAnswers.map
          ProcessedAnswer.isCorrect
        ≠ (submitGrade examVariantC [⟨"q1", "B"⟩]).processedAnswers.map
          ProcessedAnswer.isCorrect := by
  constructor
  · decide
  · decide

/-- C7 amended: the per-answer flag computed at submission time is returned in
the in-memory grading result and drives the score, but the persisted Answer
record keeps only the question id, the submitted text and the owning response
id: persistence is invariant under changes of the flag alone. -/
theorem c7_flag_not_persisted (responseId : String)
    (l1 l2 : List ProcessedAnswer)
    (h : l1.map (fun pa => (pa.questionId, pa.answer))
        = l2.map (fun pa => (pa.questionId, pa.answer))) :
    answersData responseId l1 = answersData responseId l2
      ∧ ∀ exam answers,
          answersData responseId (submitGrade exam answers).processedAnswers
            = (submitGrade exam answers).processedAnswers.map
                (fun pa => { questionId := pa.questionId, answer := pa.answer,
                             responseId := responseId }) := by
  have factor : ∀ l : List ProcessedAnswer,
      answersData responseId l
        = (l.map (fun pa => (pa.questionId, pa.answer))).map
            (fun p => { questionId := p.1, answer := p.2,
                        responseId := responseId }) := by
    intro l
    rw [answersData, List.map_map]
    rfl
  refine ⟨?_, fun exam answers => rfl⟩
  rw [factor l1, factor l2, h]

/-- C7 amended witness: two graded records differing only in their flag
persist to the same row. -/
theorem c7_flag_not_persisted_witness :
    answersData "r9" [⟨"q1", "B", true⟩] = answersData "r9" [⟨"q1", "B", false⟩] :=
  (c7_flag_not_persisted "r9" [⟨"q1", "B", true⟩] [⟨"q1", "B", false⟩] (by decide)).1

/-- C8: a manual score override by the author of the exam of an existing
response succeeds for ANY new score — no bound against `totalPoints` is
checked — and changes only the `score` field of that response: every other
field of the row, every other response row, and the `exams` and `answers`
tables are untouched. -/
theorem c8_override_score_only (db : Database) (responseId : String)
    (newScore : Int) (uid : String) (r : ResponseRow)
    (hfind : findResponse db responseId = some r)
    (hauth : examAuthorId db r.examId = some uid) :
    updateResponseScore db responseId newScore uid
        = ({ db with responses := (db.responses.map (fun x => if x.id == responseId then { r with score := some newScore } else x)) },
           .ok { r with score := some newScore })
      ∧ ({ r with score := some newScore }).score = some newScore
      ∧ ({ r with score := some newScore }).totalPoints = r.totalPoints
      ∧ ({ r with score := some newScore }).id = r.id
      ∧ ({ r with score := some newScore }).studentName = r.studentName
      ∧ ({ r with score := some newScore }).studentEmail = r.studentEmail
      ∧ ({ r with score := some newScore }).examId = r.examId
      ∧ (updateResponseScore db responseId newScore uid).1.exams = db.exams
      ∧ (updateResponseScore db responseId newScore uid).1.answers = db.answers
      ∧ (∀ x ∈ db.responses, x.id ≠ responseId →
          x ∈ (updateResponseScore db responseId newScore uid).1.responses) := by
  have hmain : updateResponseScore db responseId newScore uid
      = ({ db with responses := (db.responses.map (fun x => if x.id == responseId then { r with score := some newScore } else x)) },
         .ok { r with score := some newScore }) := by
    unfold updateResponseScore
    rw [hfind]
    dsimp only
    rw [hauth]
    dsimp only
    rw [if_pos (by simp)]
  refine ⟨hmain, rfl, rfl, rfl, rfl, rfl, rfl, ?_, ?_, ?_⟩
  · rw [hmain]
  · rw [hmain]
  · intro x hx hne
    rw [hmain]
    refine List.mem_map.mpr ⟨x, hx, ?_⟩
    rw [if_neg (by simpa using hne)]

/-- C8 witness: with totalPoints 15, the author sets score 20 — above the
maximum achievable — and the override is accepted, changing score only
(spec scenario D). -/
theorem c8_override_score_only_witness :
    responseR1.totalPoints < 20
      ∧ updateResponseScore sampleDb "r1" 20 "alice"
          = ({ sampleDb with responses := (sampleDb.responses.map (fun x => if x.id == "r1" then { responseR1 with score := some 20 } else x)) },
             .ok { responseR1 with score := some 20 })
      ∧ ({ responseR1 with score := some 20 }).totalPoints = responseR1.totalPoints :=
  ⟨by decide,
   (c8_override_score_only sampleDb "r1" 20 "alice" responseR1
      (by decide) (by decide)).1,
   (c8_override_score_only sampleDb "r1" 20 "alice" responseR1
      (by decide) (by decide)).2.2.1⟩

/-- C9 counterexample: the claim distinguishes an Authorization error (acting
user not the author) from a NotFound error (response missing).  The code
returns the one and the same 404 `Response not found` outcome in both
situations: here the response row exists and the acting user is simply not
the author, yet the produced failure is exactly the NotFound outcome produced
when the row is absent — no distinct Authorization error exists. -/
theorem c9_counterexample :
    updateResponseScore sampleDb "r1" 20 "mallory"
        = (sampleDb, .error .responseNotFound)
      ∧ updateResponseScore emptyRespDb "r1" 20 "alice"
        = (emptyRespDb, .error .responseNotFound)
      ∧ findResponse sampleDb "r1" = some responseR1
      ∧ findResponse emptyRespDb "r1" = none
      ∧ "mallory" ≠ sampleExam.authorId := by
  refine ⟨by decide, by decide, by decide, by decide, by decide⟩

/-- C9 amended: the override fails — with the same NotFound outcome
(404 `Response not found`) in both situations — when the response row does not
exist and when the acting user is not the author of its exam; in both failure
situations the database is returned unchanged, so no mutation occurs. -/
theorem c9_failure_no_mutation (db : Database) (responseId : String)
    (s : Int) (uid : String) :
    (findResponse db responseId = none →
        updateResponseScore db responseId s uid = (db, .error .responseNotFound))
      ∧ (∀ r a, findResponse db responseId = some r →
          examAuthorId db r.examId = some a → a ≠ uid →
          updateResponseScore db responseId s uid
            = (db, .error .responseNotFound)) := by
  constructor
  · intro h
    unfold updateResponseScore
    rw [h]
  · intro r a hr ha hne
    unfold updateResponseScore
    rw [hr]
    dsimp only
    rw [ha]
    dsimp only
    rw [if_neg (by simpa using hne)]

/-- C9 amended witness: the non-author override attempt on the existing
response fails with the NotFound outcome and leaves the database unchanged. -/
theorem c9_failure_no_mutation_witness :
    updateResponseScore sampleDb "r1" 7 "mallory"
        = (sampleDb, .error .responseNotFound) :=
  (c9_failure_no_mutation sampleDb "r1" 7 "mallory").2 responseR1 "alice"
    (by decide) (by decide) (by decide)

/-- C10: with the nonnegative point values the application enforces at exam
creation (points are validated into 1..100 and default to 1), the auto-graded
score satisfies `0 ≤ score ≤ totalPoints`: each question contributes its
points at most once, and only if those points were also counted into the
total. -/
theorem c10_score_bounded_by_total (exam : Exam) (answers : List SubmittedAnswer)
    (hpts : ∀ q ∈ exam.questions, 0 ≤ q.points) :
    0 ≤ (submitGrade exam answers).score
      ∧ (submitGrade exam answers).score ≤ (submitGrade exam answers).totalPoints := by
  have hpts2 : ∀ q ∈ orderedQuestions exam, 0 ≤ q.points :=
    fun q hq => hpts q ((orderedQuestions_perm exam).mem_iff.mp hq)
  have hscore : (submitGrade exam answers).score
      = ((orderedQuestions exam).map (questionContribution answers)).sum :=
    gradeQuestions_score answers (orderedQuestions exam)
  have htotal : (submitGrade exam answers).totalPoints
      = ((orderedQuestions exam).map Question.points).sum :=
    gradeQuestions_totalPoints answers (orderedQuestions exam)
  constructor
  · rw [hscore]
    refine List.sum_nonneg ?_
    intro x hx
    rcases List.mem_map.mp hx with ⟨q, hq, rfl⟩
    exact questionContribution_nonneg answers q (hpts2 q hq)
  · rw [hscore, htotal]
    refine List.sum_le_sum ?_
    intro q hq
    exact questionContribution_le answers q (hpts2 q hq)

/-- C10 witness: scenario A scores 10 within the total 15. -/
theorem c10_score_bounded_by_total_witness :
    0 ≤ (submitGrade sampleExam [⟨"q1", "B"⟩]).score
      ∧ (submitGrade sampleExam [⟨"q1", "B"⟩]).score
        ≤ (submitGrade sampleExam [⟨"q1", "B"⟩]).totalPoints :=
  c10_score_bounded_by_total sampleExam [⟨"q1", "B"⟩] (by decide)

end QuizMaker
